import Mathlib

/-!
Shallow embedding of the radar-blip-server core: the ping lifecycle
controller (`src/controllers/ping.controller.ts`), the radar controller
(`src/controllers/radar.controller.ts`), the location middleware, and the
socket presence registry (`src/routes/user.routes.ts` socket half).

User ids, ping ids and socket ids are modelled as `Nat`; timestamps as `Int`
(milliseconds); stored coordinates as `ℚ` (JSON numbers); the pure geo math
works over `ℝ`.  Mongo collections are modelled as Lean lists, `findById`
as first-match lookup, `create` as append, `save` as replace-by-id.
-/

namespace RadarBlip

/-- Ping status values of the canonical Ping schema (`models/Ping.ts`):
`'pending' | 'accepted' | 'declined' | 'expired'`. -/
inductive PingStatus where
  | pending
  | accepted
  | declined
  | expired
deriving DecidableEq, Repr

/-- A Ping document per `models/Ping.ts`: sender, recipient, status,
createdAt, optional respondedAt, expiresAt.  (An `id` models Mongo's
`_id`.) -/
structure PingRec where
  id : Nat
  sender : Nat
  recipient : Nat
  status : PingStatus
  createdAt : Int
  expiresAt : Int
  respondedAt : Option Int := none
deriving DecidableEq, Repr

/-- Gender enum of the User schema. -/
inductive Gender where
  | male
  | female
  | other
deriving DecidableEq, Repr

/-- A User document as the controllers read it.  The controllers access
`user.blockedUsers` (ping and radar controllers), which the Mongoose
User schema in the repository does not declare; we model it as a list
(empty when absent) so the controller-level checks are represented as
written.  `location` stores `[longitude, latitude]` as in the schema. -/
structure UserRec where
  id : Nat
  blockedUsers : List Nat := []
  gender : Option Gender := none
  location : ℚ × ℚ := (0, 0)
  locationUpdatedAt : Int := 0
  radarRange : Int := 5
  isOnline : Bool := false
  lastActive : Int := 0
deriving DecidableEq, Repr

/-- Embeds `User.findById`: first document with the given id. -/
def findUser (users : List UserRec) (uid : Nat) : Option UserRec :=
  users.find? (fun u => u.id = uid)

/-- Embeds `Ping.findById`: first ping document with the given id. -/
def findPing (store : List PingRec) (pid : Nat) : Option PingRec :=
  store.find? (fun p => p.id = pid)

/-- Mongoose `doc.save()` on a ping: replace the stored document with the
same id. -/
def savePing (store : List PingRec) (p : PingRec) : List PingRec :=
  store.map (fun q => if q.id = p.id then p else q)

/-- Mongoose `doc.save()` / `findByIdAndUpdate` on a user: replace the
stored document with the same id. -/
def saveUser (users : List UserRec) (u : UserRec) : List UserRec :=
  users.map (fun v => if v.id = u.id then u else v)

/-! ## Ping controller (`ping.controller.ts`, the `recipient`-based one) -/

/-- Error outcomes of `sendPing` (HTTP error responses in the source). -/
inductive SendErr where
  | userNotFound
  | selfPing
  | blockedByCurrent
  | blockedByTarget
  | duplicateActive
deriving DecidableEq, Repr

/-- The `$or` filter of `sendPing`'s duplicate check, on one document:
a pending ping in either direction between the two users. -/
def pendingPairMatch (p : PingRec) (a b : Nat) : Bool :=
  (p.sender = a ∧ p.recipient = b ∧ p.status = .pending)
    ∨ (p.sender = b ∧ p.recipient = a ∧ p.status = .pending)

/-- The `Ping.findOne` disjunctive query of `sendPing`: does a pending ping exist
between the pair in either direction? -/
def hasPendingBetween (store : List PingRec) (a b : Nat) : Bool :=
  store.any (fun p => pendingPairMatch p a b)

/-- All pending pings between the unordered pair, in store order. -/
def pendingBetween (store : List PingRec) (a b : Nat) : List PingRec :=
  store.filter (fun p => pendingPairMatch p a b)

/-- Embeds `currentUser?.blockedUsers?.includes(targetUserId)`: optional chaining,
false when the sender document is missing. -/
def optBlocks (u : Option UserRec) (target : Nat) : Bool :=
  match u with
  | none => false
  | some cu => cu.blockedUsers.contains target

/-- Ping TTL used by `sendPing`: `5 * 60 * 1000` ms. -/
def pingTTL : Int := 5 * 60 * 1000

/-- The document `Ping.create` inserts in `sendPing`. -/
def mkPing (newId senderId targetId : Nat) (now : Int) : PingRec :=
  { id := newId, sender := senderId, recipient := targetId,
    status := .pending, createdAt := now, expiresAt := now + pingTTL }

/-- Embeds `sendPing` (`POST /api/ping/:userId`).  Mirrors the source order:
target-exists check, self check, both block checks, duplicate-active
check, then `Ping.create` with status pending and `expiresAt = now + TTL`.
(ObjectId well-formedness is not modelled: ids are abstract.)
Returns the new store on success. -/
def sendPing (users : List UserRec) (senderId targetId : Nat) (now : Int)
    (newId : Nat) (store : List PingRec) : Except SendErr (List PingRec) :=
  match findUser users targetId with
  | none => .error .userNotFound
  | some targetUser =>
    if targetId = senderId then .error .selfPing
    else if optBlocks (findUser users senderId) targetId then
      .error .blockedByCurrent
    else if targetUser.blockedUsers.contains senderId then
      .error .blockedByTarget
    else if hasPendingBetween store senderId targetId then
      .error .duplicateActive
    else .ok (store ++ [mkPing newId senderId targetId now])

/-- Error outcomes of `respondToPing`. -/
inductive RespondErr where
  | notFound
  | notAuthorized
  | alreadyResolved (s : PingStatus)
  | expired
deriving DecidableEq, Repr

/-- Embeds `respondToPing` (`POST /api/ping/:pingId/respond`).  Mirrors the source:
not-found, recipient check, already-terminal check, then the expiry check
which eagerly persists `status := expired` before failing; otherwise the
decision is stored with `respondedAt`.  Returns the (possibly updated)
store alongside the outcome. -/
def respondToPing (store : List PingRec) (pingId responderId : Nat)
    (accept : Bool) (now : Int) : List PingRec × Except RespondErr PingRec :=
  match findPing store pingId with
  | none => (store, .error .notFound)
  | some ping =>
    if ping.recipient ≠ responderId then (store, .error .notAuthorized)
    else if ping.status ≠ .pending then
      (store, .error (.alreadyResolved ping.status))
    else if ping.expiresAt < now then
      (savePing store { ping with status := .expired }, .error .expired)
    else
      let ping' := { ping with
        status := if accept then .accepted else .declined,
        respondedAt := some now }
      (savePing store ping', .ok ping')

/-- The `receiver` disjunct of `getPings`'s `$or` filter.  The canonical
Ping schema declares `recipient`, not `receiver`, so an equality filter on
the undeclared `receiver` path matches no document. -/
def receiverFieldEq (_p : PingRec) (_uid : Nat) : Bool :=
  false

/-- Insertion of one ping into a list kept descending by `createdAt`
(`sort('-createdAt')`). -/
def insertByCreatedDesc (p : PingRec) : List PingRec → List PingRec
  | [] => [p]
  | q :: qs =>
    if q.createdAt ≤ p.createdAt then p :: q :: qs
    else q :: insertByCreatedDesc p qs

/-- Sort newest-first by `createdAt`. -/
def sortByCreatedDesc (l : List PingRec) : List PingRec :=
  l.foldr insertByCreatedDesc []

/-- Embeds `getPings` (`GET /api/pings`): all pings matching the `$or` filter on
`sender` / `receiver`, sorted newest-first.  No expiry normalisation is
performed; documents are returned with their stored status. -/
def getPings (store : List PingRec) (uid : Nat) : List PingRec :=
  sortByCreatedDesc
    (store.filter (fun p => p.sender = uid ∨ receiverFieldEq p uid))

/-- Error outcomes of `deletePing`. -/
inductive DeleteErr where
  | notFound
  | notAuthorized
deriving DecidableEq, Repr

/-- Embeds `deletePing` (`DELETE /api/pings/:id`): not-found check, sender check,
then `ping.deleteOne()` — the document is removed whatever its status.
Returns the new store on success. -/
def deletePing (store : List PingRec) (pingId requesterId : Nat) :
    List PingRec × Except DeleteErr Unit :=
  match findPing store pingId with
  | none => (store, .error .notFound)
  | some ping =>
    if ping.sender ≠ requesterId then (store, .error .notAuthorized)
    else (store.eraseP (fun q => q.id = ping.id), .ok ())

/-! ## Geo math (`radar.controller.ts` helper functions) -/

/-- JavaScript `Math.atan2(y, x)` over the reals (finite, signed-zero-free
case split): the angle of the point `(x, y)` in `(-π, π]`, with
`atan2 0 0 = 0`. -/
noncomputable def atan2 (y x : ℝ) : ℝ :=
  if 0 < x then Real.arctan (y / x)
  else if x < 0 ∧ 0 ≤ y then Real.arctan (y / x) + Real.pi
  else if x < 0 ∧ y < 0 then Real.arctan (y / x) - Real.pi
  else if x = 0 ∧ 0 < y then Real.pi / 2
  else if x = 0 ∧ y < 0 then -(Real.pi / 2)
  else 0

/-- The local constant `a` of `calculateDistance`: the haversine term
`sin²(Δφ/2) + cos φ1 · cos φ2 · sin²(Δλ/2)`. -/
noncomputable def haversineA (lat1 lon1 lat2 lon2 : ℝ) : ℝ :=
  let phi1 := lat1 * Real.pi / 180
  let phi2 := lat2 * Real.pi / 180
  let dphi := (lat2 - lat1) * Real.pi / 180
  let dlam := (lon2 - lon1) * Real.pi / 180
  Real.sin (dphi / 2) * Real.sin (dphi / 2) +
    Real.cos phi1 * Real.cos phi2 * Real.sin (dlam / 2) * Real.sin (dlam / 2)

/-- Embeds `calculateDistance(lat1, lon1, lat2, lon2)`: haversine distance in
meters, Earth radius `6371e3`. -/
noncomputable def calculateDistance (lat1 lon1 lat2 lon2 : ℝ) : ℝ :=
  let R : ℝ := 6371e3
  let a := haversineA lat1 lon1 lat2 lon2
  let c := 2 * atan2 (Real.sqrt a) (Real.sqrt (1 - a))
  R * c

/-- JavaScript `%` on reals for the one use in `calculateAngle`, where the
dividend is positive (θ·180/π + 360 > 180), so the floor-based remainder
agrees with JS's truncation-based one. -/
noncomputable def jsMod (a b : ℝ) : ℝ :=
  a - b * ⌊a / b⌋

/-- Embeds `calculateAngle(lat1, lon1, lat2, lon2)`: initial bearing in degrees,
`(θ·180/π + 360) % 360`. -/
noncomputable def calculateAngle (lat1 lon1 lat2 lon2 : ℝ) : ℝ :=
  let phi1 := lat1 * Real.pi / 180
  let phi2 := lat2 * Real.pi / 180
  let dlam := (lon2 - lon1) * Real.pi / 180
  let y := Real.sin dlam * Real.cos phi2
  let x := Real.cos phi1 * Real.sin phi2 -
    Real.sin phi1 * Real.cos phi2 * Real.cos dlam
  let theta := atan2 y x
  jsMod (theta * 180 / Real.pi + 360) 360

/-! ## Radar controller (`radar.controller.ts`) -/

/-- Embeds `const MAX_RADIUS = 10` (kilometers). -/
def MAX_RADIUS : Int := 10

/-- Error outcomes of `getNearbyUsers`. -/
inductive RadarErr where
  | userNotFound
  | invalidRange
  | locationUnavailable
deriving DecidableEq, Repr

/-- One element of `getNearbyUsers`'s response: id, gender (defaulted to
`other`), online flag, lastActive, rounded distance and angle. -/
structure NearbyEntry where
  uid : Nat
  gender : Gender
  isOnline : Bool
  lastActive : Int
  distance : ℤ
  angle : ℤ

/-- The enrichment step of `getNearbyUsers`: distance and angle from the
requester's `[lon1, lat1]` to the candidate's `[lon2, lat2]`, each passed
through `Math.round`. -/
noncomputable def mkEntry (coords : ℚ × ℚ) (u : UserRec) : NearbyEntry :=
  { uid := u.id
    gender := u.gender.getD .other
    isOnline := u.isOnline
    lastActive := u.lastActive
    distance := round (calculateDistance (coords.2 : ℝ) (coords.1 : ℝ)
      (u.location.2 : ℝ) (u.location.1 : ℝ))
    angle := round (calculateAngle (coords.2 : ℝ) (coords.1 : ℝ)
      (u.location.2 : ℝ) (u.location.1 : ℝ)) }

/-- The Mongo filter of `getNearbyUsers`'s `User.find`: `_id ≠ requester`,
`blockedUsers` not containing the requester (`$nin`), and the `$geoWithin /
$centerSphere` predicate — the latter is the external spatial index and is
taken as a parameter `geoWithin` (the engine only layers filtering on top
of it). -/
def dbNearbyFilter (requesterId : Nat) (geoWithin : UserRec → Bool)
    (u : UserRec) : Bool :=
  u.id ≠ requesterId ∧ ¬ u.blockedUsers.contains requesterId ∧ geoWithin u

/-- The post-query JS filter of `getNearbyUsers`:
`!user.blockedUsers || !user.blockedUsers.some(id => id === userId)`. -/
def jsBlockFilter (requesterId : Nat) (u : UserRec) : Bool :=
  ¬ u.blockedUsers.contains requesterId

/-- Embeds `getNearbyUsers` (`GET /api/radar/nearby`).  Mirrors the source:
requester lookup, range defaulting to `settings.radarRange`, the
`range <= 0 || range > MAX_RADIUS` rejection, the geo query with its
`_id`/`blockedUsers` conjuncts, the JS re-filter, and the enrichment map —
in candidate order, with no sorting.  (The `coordinates.length !== 2`
guard cannot fire in the model because the schema stores a pair;
authentication is out of scope.) -/
noncomputable def getNearbyUsers (users : List UserRec) (requesterId : Nat)
    (rangeParam : Option Int) (geoWithin : UserRec → Bool) :
    Except RadarErr (List NearbyEntry) :=
  match findUser users requesterId with
  | none => .error .userNotFound
  | some currentUser =>
    let range := rangeParam.getD currentUser.radarRange
    if range ≤ 0 ∨ MAX_RADIUS < range then .error .invalidRange
    else
      let coordinates := currentUser.location
      let nearbyUsers := users.filter (dbNearbyFilter requesterId geoWithin)
      let filteredUsers := nearbyUsers.filter (jsBlockFilter requesterId)
      .ok (filteredUsers.map (mkEntry coordinates))

/-- Error outcomes of the radar controller's `updateLocation`. -/
inductive UpdErr where
  | invalidFormat
  | notNumbers
  | userNotFound
deriving DecidableEq, Repr

/-- Embeds `updateLocation` (`POST /api/radar/location`).  The body's
`coordinates` is `none` when absent or not an array; a `none` element is a
non-number entry.  Mirrors the source: format check, number check, user
lookup, then overwrite of `location`, `isOnline := true`,
`lastActive := now`, and `save`.  No range validation is performed. -/
def updateLocation (users : List UserRec) (userId : Nat)
    (coordinates : Option (List (Option ℚ))) (now : Int) :
    List UserRec × Except UpdErr (ℚ × ℚ) :=
  match coordinates with
  | none => (users, .error .invalidFormat)
  | some arr =>
    if arr.length ≠ 2 then (users, .error .invalidFormat)
    else
      match arr with
      | [some longitude, some latitude] =>
        match findUser users userId with
        | none => (users, .error .userNotFound)
        | some user =>
          let user' := { user with
            location := (longitude, latitude),
            locationUpdatedAt := now,
            isOnline := true,
            lastActive := now }
          (saveUser users user', .ok (longitude, latitude))
      | _ => (users, .error .notNumbers)

/-! ## Location middleware (`middleware/updateLocation`) -/

/-- JavaScript falsiness of a destructured numeric body field:
absent/null (`none`) or exactly `0`. -/
def jsFalsy (x : Option ℚ) : Bool :=
  match x with
  | none => true
  | some v => v = 0

/-- The location middleware.  `if (!longitude || !latitude)` skips the
update (so a coordinate of exactly 0 is treated as absent); otherwise the
range validation `[-180,180] × [-90,90]` skips on failure; otherwise, when
a user is attached to the request, `findByIdAndUpdate` stores coordinates,
`lastActive` and `isOnline := true`.  All paths fall through to `next()`:
the middleware never signals an error, it returns the (possibly updated)
user store.  (Non-number body values, which the `typeof` check also
skips, are not modelled.) -/
def mwUpdateLocation (users : List UserRec) (userId : Option Nat)
    (longitude latitude : Option ℚ) (now : Int) : List UserRec :=
  if jsFalsy longitude ∨ jsFalsy latitude then users
  else
    let lo := longitude.getD 0
    let la := latitude.getD 0
    let isValidLong := -180 ≤ lo ∧ lo ≤ 180
    let isValidLat := -90 ≤ la ∧ la ≤ 90
    if ¬ isValidLong ∨ ¬ isValidLat then users
    else
      match userId with
      | none => users
      | some uid =>
        match findUser users uid with
        | none => users
        | some user =>
          saveUser users { user with
            location := (lo, la),
            locationUpdatedAt := now,
            lastActive := now,
            isOnline := true }

/-! ## Socket presence registry (`initSocketServer` in `user.routes.ts`) -/

/-- Set a key in the `connectedUsers` map (replace or insert). -/
def mapSet (m : List (Nat × Nat)) (k v : Nat) : List (Nat × Nat) :=
  if m.any (fun e => e.1 = k) then
    m.map (fun e => if e.1 = k then (k, v) else e)
  else m ++ [(k, v)]

/-- Delete a key from the `connectedUsers` map. -/
def mapDelete (m : List (Nat × Nat)) (k : Nat) : List (Nat × Nat) :=
  m.filter (fun e => e.1 ≠ k)

/-- Embeds `connectedUsers.has(k)`. -/
def mapHas (m : List (Nat × Nat)) (k : Nat) : Bool :=
  m.any (fun e => e.1 = k)

/-- Embeds `connectedUsers.get(k)` (for stating which socket a user maps to). -/
def mapGet (m : List (Nat × Nat)) (k : Nat) : Option Nat :=
  (m.find? (fun e => e.1 = k)).map (fun e => e.2)

/-- Set a user's `isOnline` flag in the user-store view the socket code
keeps via `User.findByIdAndUpdate`. -/
def setOnline (db : List (Nat × Bool)) (uid : Nat) (b : Bool) :
    List (Nat × Bool) :=
  if db.any (fun e => e.1 = uid) then
    db.map (fun e => if e.1 = uid then (uid, b) else e)
  else db ++ [(uid, b)]

/-- The stored `isOnline` flag (users absent from the view default to the schema
default `false`). -/
def dbOnline (db : List (Nat × Bool)) (uid : Nat) : Bool :=
  ((db.find? (fun e => e.1 = uid)).map (fun e => e.2)).getD false

/-- State of the socket server: the `connectedUsers` map (userId →
socket id), the persisted `isOnline` flags, and the pending
`setTimeout` callbacks of the disconnect handler, each recorded as
(fire time, userId captured by the closure). -/
structure SocketSt where
  connected : List (Nat × Nat)
  online : List (Nat × Bool)
  timers : List (Int × Nat)
deriving DecidableEq, Repr

/-- A fresh server: no connections, no flags, no timers. -/
def SocketSt.init : SocketSt :=
  { connected := [], online := [], timers := [] }

/-- A socket connects: the auth middleware sets `isOnline := true` in the
store, then the connection handler does `connectedUsers.set(userId,
socket.id)`.  No pending timer is cancelled. -/
def connectSocket (st : SocketSt) (uid sid : Nat) : SocketSt :=
  { st with
    online := setOnline st.online uid true,
    connected := mapSet st.connected uid sid }

/-- The `disconnect` handler for a socket of user `uid`:
`connectedUsers.delete(socket.userId)` unconditionally (the socket id is
not compared against the map's current value), then `setTimeout(...,
10000)` scheduling the offline write.  `_sid` is the closing socket's id,
unused by the source. -/
def disconnectSocket (st : SocketSt) (uid _sid : Nat) (now : Int) :
    SocketSt :=
  { st with
    connected := mapDelete st.connected uid,
    timers := st.timers ++ [(now + 10000, uid)] }

/-- A scheduled timer fires: `if (!connectedUsers.has(userId))` write
`isOnline := false`; otherwise do nothing. -/
def fireTimer (st : SocketSt) (uid : Nat) : SocketSt :=
  if mapHas st.connected uid then st
  else { st with online := setOnline st.online uid false }

/-- Advance the clock to `t`: every timer due by `t` fires (in scheduling
order) and is removed. -/
def elapse (st : SocketSt) (t : Int) : SocketSt :=
  let due := st.timers.filter (fun e => e.1 ≤ t)
  let rest := st.timers.filter (fun e => ¬ e.1 ≤ t)
  due.foldl (fun s e => fireTimer s e.2)
    { st with timers := rest }

/-! ## Helper lemmas -/

lemma sin_half_sub_neg (x y : ℝ) :
    Real.sin ((x - y) * Real.pi / 180 / 2)
      = -Real.sin ((y - x) * Real.pi / 180 / 2) := by
  rw [show (x - y) * Real.pi / 180 / 2 = -((y - x) * Real.pi / 180 / 2) by ring,
    Real.sin_neg]

lemma haversineA_symm (lat1 lon1 lat2 lon2 : ℝ) :
    haversineA lat2 lon2 lat1 lon1 = haversineA lat1 lon1 lat2 lon2 := by
  simp only [haversineA]
  rw [sin_half_sub_neg lat1 lat2, sin_half_sub_neg lon1 lon2]
  ring

lemma haversineA_self (lat lon : ℝ) : haversineA lat lon lat lon = 0 := by
  simp [haversineA]

lemma calculateDistance_symm (lat1 lon1 lat2 lon2 : ℝ) :
    calculateDistance lat2 lon2 lat1 lon1 = calculateDistance lat1 lon1 lat2 lon2 := by
  have h := haversineA_symm lat1 lon1 lat2 lon2
  simp only [calculateDistance]
  rw [h]

lemma calculateDistance_self_zero (lat lon : ℝ) :
    calculateDistance lat lon lat lon = 0 := by
  norm_num [calculateDistance, haversineA_self, atan2, Real.sqrt_zero,
    Real.sqrt_one, Real.arctan_zero]

lemma mem_insertByCreatedDesc (p q : PingRec) (l : List PingRec) :
    q ∈ insertByCreatedDesc p l ↔ q = p ∨ q ∈ l := by
  induction l with
  | nil => simp [insertByCreatedDesc]
  | cons r rs ih =>
    simp only [insertByCreatedDesc]
    split
    · simp [List.mem_cons]
    · simp only [List.mem_cons, ih]
      tauto

lemma mem_sortByCreatedDesc (q : PingRec) (l : List PingRec) :
    q ∈ sortByCreatedDesc l ↔ q ∈ l := by
  induction l with
  | nil => simp [sortByCreatedDesc]
  | cons r rs ih =>
    simp only [sortByCreatedDesc, List.foldr_cons] at *
    rw [mem_insertByCreatedDesc, ih, List.mem_cons]

/-- Unwrap a radar result for stating concrete facts about its list. -/
noncomputable def resultList : Except RadarErr (List NearbyEntry) → List NearbyEntry
  | .ok l => l
  | .error _ => []

lemma mkEntry_uid (c : ℚ × ℚ) (u : UserRec) : (mkEntry c u).uid = u.id := rfl

lemma mkEntry_origin_distance (u : UserRec) (h : u.location = (0, 0)) :
    (mkEntry (0, 0) u).distance = 0 := by
  simp [mkEntry, h, calculateDistance_self_zero]

/-- Characterization of a successful nearby query: the requester resolves,
the range passes validation, and the result is the enrichment map over the
double-filtered candidate list, in candidate order. -/
lemma getNearbyUsers_ok_iff (users : List UserRec) (rid : Nat)
    (rp : Option Int) (geo : UserRec → Bool) (l : List NearbyEntry) :
    getNearbyUsers users rid rp geo = .ok l ↔
      ∃ cu, findUser users rid = some cu ∧
        ¬ (rp.getD cu.radarRange ≤ 0 ∨ MAX_RADIUS < rp.getD cu.radarRange) ∧
        l = ((users.filter (dbNearbyFilter rid geo)).filter
            (jsBlockFilter rid)).map (mkEntry cu.location) := by
  unfold getNearbyUsers
  cases hcu : findUser users rid with
  | none => simp
  | some cu =>
    by_cases hr : (rp.getD cu.radarRange ≤ 0 ∨ MAX_RADIUS < rp.getD cu.radarRange)
    · simp [hr]
      intro h1 h2
      exfalso
      omega
    · simp [hr, eq_comm]
      intro _
      omega

/-! ## Claim theorems -/

/-- C9: for all coordinate pairs `a`, `b`, `calculateDistance(a,b) =
calculateDistance(b,a)`, and `calculateDistance(a,a) = 0`: the haversine
distance is symmetric in its arguments and zero on coincident points
(exactly, in the real-number semantics of the formula). -/
theorem calculateDistance_symm_and_self :
    (∀ lat1 lon1 lat2 lon2 : ℝ,
      calculateDistance lat1 lon1 lat2 lon2 = calculateDistance lat2 lon2 lat1 lon1)
    ∧ (∀ lat lon : ℝ, calculateDistance lat lon lat lon = 0) :=
  ⟨fun lat1 lon1 lat2 lon2 => (calculateDistance_symm lat1 lon1 lat2 lon2).symm,
    calculateDistance_self_zero⟩

/-- C1: with the earlier guards passing (target exists, sender ≠ target,
no block in either direction), `sendPing` fails with the duplicate-active
conflict error exactly when a pending ping already exists between the pair
in either direction, and otherwise appends one new pending ping, which is
then the only pending ping between the pair. -/
theorem sendPing_pending_exclusive
    (users : List UserRec) (store : List PingRec) (A B : Nat) (now : Int)
    (newId : Nat) (tu : UserRec)
    (hAB : A ≠ B)
    (htu : findUser users B = some tu)
    (htb : tu.blockedUsers.contains A = false)
    (hcb : optBlocks (findUser users A) B = false) :
    (hasPendingBetween store A B = true →
      sendPing users A B now newId store = .error .duplicateActive)
    ∧ (hasPendingBetween store A B = false →
      sendPing users A B now newId store = .ok (store ++ [mkPing newId A B now])
      ∧ pendingBetween (store ++ [mkPing newId A B now]) A B
          = [mkPing newId A B now]) := by
  have hBA : ¬ (B = A) := fun h => hAB h.symm
  have htb' : A ∉ tu.blockedUsers := by simpa using htb
  constructor
  · intro hdup
    simp [sendPing, htu, hBA, hcb, htb', hdup]
  · intro hnone
    refine ⟨by simp [sendPing, htu, hBA, hcb, htb', hnone], ?_⟩
    unfold pendingBetween
    rw [List.filter_append]
    have h1 : store.filter (fun p => pendingPairMatch p A B) = [] := by
      rw [List.filter_eq_nil_iff]
      intro p hp
      have := List.any_eq_false.mp hnone p hp
      simpa using this
    have h2 : [mkPing newId A B now].filter (fun p => pendingPairMatch p A B)
        = [mkPing newId A B now] := by
      simp [pendingPairMatch, mkPing]
    rw [h1, h2, List.nil_append]

/-- C1 witness: a concrete send between fresh users 1 and 2 creates the
pending ping. -/
theorem sendPing_pending_exclusive_witness :
    sendPing [{ id := 1 }, { id := 2 }] 1 2 0 100 [] = .ok [mkPing 100 1 2 0] :=
  ((sendPing_pending_exclusive [{ id := 1 }, { id := 2 }] [] 1 2 0 100
    { id := 2 } (by decide) rfl rfl rfl).2 rfl).1

/-- C3 (amended): on a pending, time-expired ping addressed to the
responder, `respondToPing` eagerly persists `status := expired` and fails
`Expired`; but `getPings` performs no lazy-expiry normalisation — every
stored ping with the user as sender is returned verbatim, stored status
included. -/
theorem respondToPing_lazy_expiry_getPings_raw
    (store : List PingRec) (pid R : Nat) (accept : Bool) (now : Int)
    (p : PingRec)
    (hfind : findPing store pid = some p) (hrec : p.recipient = R)
    (hst : p.status = .pending) (hexp : p.expiresAt < now) :
    respondToPing store pid R accept now
      = (savePing store { p with status := .expired }, .error .expired)
    ∧ ∀ u q, q ∈ store → q.sender = u → q ∈ getPings store u := by
  constructor
  · simp [respondToPing, hfind, hrec, hst, hexp]
  · intro u q hq hu
    unfold getPings
    rw [mem_sortByCreatedDesc, List.mem_filter]
    exact ⟨hq, by simp [hu, receiverFieldEq]⟩

/-- The concrete time-expired pending ping used in the C3 record. -/
def cexExpiredPing : PingRec :=
  { id := 4, sender := 7, recipient := 8, status := .pending,
    createdAt := 0, expiresAt := 10 }

/-- C3 witness: responding at time 100 to the ping that expired at time 10
stores `expired` and fails `Expired`. -/
theorem respondToPing_lazy_expiry_getPings_raw_witness :
    respondToPing [cexExpiredPing] 4 8 true 100
      = (savePing [cexExpiredPing] { cexExpiredPing with status := .expired },
        .error .expired) :=
  (respondToPing_lazy_expiry_getPings_raw [cexExpiredPing] 4 8 true 100
    cexExpiredPing rfl rfl rfl (by decide)).1

/-- C3 counterexample: at time 100, the ping that expired at time 10 is
still returned by `getPings` for its sender with status pending, so
`listFor` does report a logically-expired ping as pending. -/
theorem getPings_reports_expired_as_pending_cex :
    cexExpiredPing ∈ getPings [cexExpiredPing] 7
    ∧ cexExpiredPing.status = .pending
    ∧ cexExpiredPing.expiresAt < 100 := by
  decide

/-- C5 (amended): `deletePing` fails `NotFound` on a missing id and
`Forbidden` when the requester is not the sender; when the requester is
the sender it removes the record whatever its status — no
pending/expiry check is performed. -/
theorem deletePing_sender_only (store : List PingRec) (pid rid : Nat) :
    (findPing store pid = none →
      deletePing store pid rid = (store, .error .notFound))
    ∧ (∀ p, findPing store pid = some p → p.sender ≠ rid →
      deletePing store pid rid = (store, .error .notAuthorized))
    ∧ (∀ p, findPing store pid = some p → p.sender = rid →
      deletePing store pid rid
        = (store.eraseP (fun q => q.id = p.id), .ok ())) :=
  ⟨fun h => by simp [deletePing, h],
    fun p hp hs => by simp [deletePing, hp, hs],
    fun p hp hs => by simp [deletePing, hp, hs]⟩

/-- The concrete accepted ping used in the C5 record. -/
def cexAcceptedPing : PingRec :=
  { id := 9, sender := 1, recipient := 2, status := .accepted,
    createdAt := 0, expiresAt := 50 }

/-- C5 witness: the sender deletes the (accepted) ping with id 9. -/
theorem deletePing_sender_only_witness :
    deletePing [cexAcceptedPing] 9 1
      = ([cexAcceptedPing].eraseP (fun q => q.id = cexAcceptedPing.id), .ok ()) :=
  (deletePing_sender_only [cexAcceptedPing] 9 1).2.2 cexAcceptedPing rfl rfl

/-- C5 counterexample: a ping with status accepted is deleted by its
sender and the call succeeds, where the claim requires a `Forbidden`
failure that leaves the record in place. -/
theorem deletePing_deletes_accepted_cex :
    deletePing [cexAcceptedPing] 9 1 = ([], .ok ())
    ∧ cexAcceptedPing.status = .accepted :=
  ⟨rfl, rfl⟩

/-- C4 (amended): every entry of a successful nearby result is a stored
user other than the requester whose `blockedUsers` does not contain the
requester and who passes the spatial predicate; blocks held BY the
requester are not consulted, so a candidate the requester has blocked can
appear (see the counterexample). -/
theorem getNearbyUsers_filter_semantics
    (users : List UserRec) (rid : Nat) (rp : Option Int)
    (geo : UserRec → Bool) (l : List NearbyEntry)
    (h : getNearbyUsers users rid rp geo = .ok l) :
    ∀ e ∈ l, e.uid ≠ rid ∧
      ∃ u ∈ users, u.id = e.uid
        ∧ u.blockedUsers.contains rid = false ∧ geo u = true := by
  obtain ⟨cu, hcu, hr, hl⟩ := (getNearbyUsers_ok_iff users rid rp geo l).mp h
  subst hl
  intro e he
  obtain ⟨u, hu, rfl⟩ := List.mem_map.mp he
  have hu2 := List.mem_filter.mp hu
  have hu3 := List.mem_filter.mp hu2.1
  have hdb : u.id ≠ rid ∧ rid ∉ u.blockedUsers ∧ geo u = true := by
    simpa [dbNearbyFilter] using hu3.2
  exact ⟨by simpa [mkEntry_uid] using hdb.1,
    u, hu3.1, (mkEntry_uid cu.location u).symm,
    by simpa using hdb.2.1, hdb.2.2⟩

/-- The user store of the C4 record: requester 1 has blocked user 2; user
2 has blocked nobody. -/
def cexBlockUsers : List UserRec := [{ id := 1, blockedUsers := [2] }, { id := 2 }]

/-- C4 witness: in the concrete store, the single result entry is user 2,
who is a stored non-requester that has not blocked the requester. -/
theorem getNearbyUsers_filter_semantics_witness :
    (mkEntry (0, 0) { id := 2 } : NearbyEntry).uid ≠ 1 ∧
      ∃ u ∈ cexBlockUsers, u.id = (mkEntry ((0 : ℚ), (0 : ℚ)) { id := 2 }).uid
        ∧ u.blockedUsers.contains 1 = false ∧ (fun (_ : UserRec) => true) u = true :=
  getNearbyUsers_filter_semantics cexBlockUsers 1 (some 5) (fun _ => true)
    [mkEntry (0, 0) { id := 2 }] rfl (mkEntry (0, 0) { id := 2 }) (by simp)

/-- C4 counterexample: user 2 is within radius (spatial predicate true)
and the requester has blocked user 2, yet user 2 appears in the result —
the query only filters blocks held by the candidate. -/
theorem getNearbyUsers_includes_requester_blocked_cex :
    (resultList (getNearbyUsers cexBlockUsers 1 (some 5) (fun _ => true))).map
        (fun e => e.uid) = [2]
    ∧ (2 : Nat) ∈ ({ id := 1, blockedUsers := [2] } : UserRec).blockedUsers :=
  ⟨rfl, by decide⟩

/-- Spec-side definition (from the claim's words, for comparison with the
code): ascending distance, ties broken by ascending userId. -/
def specNearbyOrder (e1 e2 : NearbyEntry) : Prop :=
  e1.distance < e2.distance ∨ (e1.distance = e2.distance ∧ e1.uid < e2.uid)

/-- Spec-side definition: the result sequence is sorted by
`specNearbyOrder`. -/
def specSortedNearby (l : List NearbyEntry) : Prop :=
  List.Pairwise specNearbyOrder l

/-- The user store of the C6 record: requester 1 and two candidates at the
requester's exact location, stored in descending id order. -/
def cexOrderUsers : List UserRec := [{ id := 1 }, { id := 5 }, { id := 3 }]

/-- C6 counterexample: both candidates are at distance 0 (a tie), and the
result keeps store order [5, 3] instead of the claimed ascending-userId
tie-break [3, 5]: the result is not sorted as the claim states. -/
theorem getNearbyUsers_not_sorted_cex :
    resultList (getNearbyUsers cexOrderUsers 1 (some 5) (fun _ => true))
      = [mkEntry (0, 0) { id := 5 }, mkEntry (0, 0) { id := 3 }]
    ∧ ¬ specSortedNearby
        (resultList (getNearbyUsers cexOrderUsers 1 (some 5) (fun _ => true))) := by
  have hres : resultList (getNearbyUsers cexOrderUsers 1 (some 5) (fun _ => true))
      = [mkEntry (0, 0) { id := 5 }, mkEntry (0, 0) { id := 3 }] := rfl
  refine ⟨hres, ?_⟩
  rw [hres]
  intro hsort
  have hrel := (List.pairwise_cons.mp hsort).1 (mkEntry (0, 0) { id := 3 })
    (by simp)
  have h5 : (mkEntry (0, 0) { id := 5 } : NearbyEntry).distance = 0 :=
    mkEntry_origin_distance _ rfl
  have h3 : (mkEntry (0, 0) { id := 3 } : NearbyEntry).distance = 0 :=
    mkEntry_origin_distance _ rfl
  rcases hrel with h | ⟨-, h⟩
  · rw [h5, h3] at h
    exact absurd h (by decide)
  · rw [mkEntry_uid, mkEntry_uid] at h
    exact absurd h (by decide)

/-- C6 (amended): a successful nearby result is the enrichment map over
the filtered candidate list in candidate-store order — no sort by distance
or userId is applied, so the order is that of the candidate source, not a
function of computed distances. -/
theorem getNearbyUsers_preserves_candidate_order
    (users : List UserRec) (rid : Nat) (rp : Option Int)
    (geo : UserRec → Bool) (l : List NearbyEntry)
    (h : getNearbyUsers users rid rp geo = .ok l) :
    l.map (fun e => e.uid)
      = ((users.filter (dbNearbyFilter rid geo)).filter
          (jsBlockFilter rid)).map (fun u => u.id) := by
  obtain ⟨cu, hcu, hr, hl⟩ := (getNearbyUsers_ok_iff users rid rp geo l).mp h
  subst hl
  rw [List.map_map]
  rfl

/-- C6 witness: on the concrete store the uid order of the result is the
store order [5, 3]. -/
theorem getNearbyUsers_preserves_candidate_order_witness :
    ([mkEntry (0, 0) { id := 5 }, mkEntry (0, 0) { id := 3 }] : List NearbyEntry).map
        (fun e => e.uid)
      = ((cexOrderUsers.filter (dbNearbyFilter 1 (fun _ => true))).filter
          (jsBlockFilter 1)).map (fun u => u.id) :=
  getNearbyUsers_preserves_candidate_order cexOrderUsers 1 (some 5)
    (fun _ => true) [mkEntry (0, 0) { id := 5 }, mkEntry (0, 0) { id := 3 }] rfl

/-- C8 (amended): with the requester resolved, a non-positive requested
radius and a radius above the configured maximum are BOTH rejected with
the invalid-range error; no clamping is performed. -/
theorem getNearbyUsers_range_validation
    (users : List UserRec) (rid : Nat) (geo : UserRec → Bool) (r : Int)
    (cu : UserRec) (hcu : findUser users rid = some cu) :
    (r ≤ 0 → getNearbyUsers users rid (some r) geo = .error .invalidRange)
    ∧ (MAX_RADIUS < r →
      getNearbyUsers users rid (some r) geo = .error .invalidRange) := by
  constructor
  · intro h
    simp [getNearbyUsers, hcu, h]
  · intro h
    simp [getNearbyUsers, hcu, h]

/-- C8 witness: radius 0 is rejected for a resolved requester. -/
theorem getNearbyUsers_range_validation_witness :
    getNearbyUsers [{ id := 1 }] 1 (some 0) (fun _ => true)
      = .error .invalidRange :=
  (getNearbyUsers_range_validation [{ id := 1 }] 1 (fun _ => true) 0
    { id := 1 } rfl).1 (by decide)

/-- C8 counterexample: a requested radius of 11 km (above `MAX_RADIUS =
10`) makes the query fail with the invalid-range error instead of
succeeding with the radius clamped to the maximum. -/
theorem getNearbyUsers_over_max_rejected_cex :
    getNearbyUsers [{ id := 1 }] 1 (some 11) (fun _ => true)
      = .error .invalidRange
    ∧ MAX_RADIUS < 11 :=
  ⟨rfl, by decide⟩

/-- C7 (amended): the radar `updateLocation` rejects only malformed bodies
(missing/non-array coordinates, wrong length, non-number entries), leaving
the store unchanged; ANY numeric pair — including out-of-range longitude
or latitude — overwrites the stored location, `lastActive` and
`isOnline`; no range validation is performed. -/
theorem updateLocation_no_range_validation
    (users : List UserRec) (uid : Nat) (now : Int) :
    (updateLocation users uid none now = (users, .error .invalidFormat))
    ∧ (∀ arr, arr.length ≠ 2 →
        updateLocation users uid (some arr) now = (users, .error .invalidFormat))
    ∧ (∀ a b, a = none ∨ b = none →
        updateLocation users uid (some [a, b]) now = (users, .error .notNumbers))
    ∧ (∀ lon lat u, findUser users uid = some u →
        updateLocation users uid (some [some lon, some lat]) now
          = (saveUser users { u with
              location := (lon, lat),
              locationUpdatedAt := now, isOnline := true, lastActive := now },
            .ok (lon, lat))) := by
  refine ⟨rfl, fun arr h => by simp [updateLocation, h], ?_, ?_⟩
  · rintro a b (rfl | rfl)
    · cases b <;> rfl
    · cases a <;> rfl
  · intro lon lat u hu
    simp [updateLocation, hu]

/-- The user of the C7 record. -/
def cexLocUser : UserRec := { id := 1 }

/-- C7 witness: the out-of-range pair (200, 95) is stored for user 1. -/
theorem updateLocation_no_range_validation_witness :
    updateLocation [cexLocUser] 1 (some [some 200, some 95]) 7
      = (saveUser [cexLocUser] { cexLocUser with
          location := (200, 95),
          locationUpdatedAt := 7, isOnline := true, lastActive := 7 },
        .ok (200, 95)) :=
  (updateLocation_no_range_validation [cexLocUser] 1 7).2.2.2 200 95
    cexLocUser rfl

/-- C7 counterexample: longitude 200 and latitude 95 are out of range, yet
the call succeeds and overwrites the stored location, where the claim
requires an `InvalidInput` failure leaving the prior location (0, 0)
untouched. -/
theorem updateLocation_accepts_out_of_range_cex :
    updateLocation [cexLocUser] 1 (some [some 200, some 95]) 7
      = ([{ cexLocUser with
          location := (200, 95), locationUpdatedAt := 7,
          isOnline := true, lastActive := 7 }], .ok (200, 95))
    ∧ ((200 : ℚ) ≤ 180 → False) := by
  exact ⟨rfl, by norm_num⟩

/-- The state after connect(U, h1), disconnect(U, h1) at `t0`,
connect(U, h2) before the 10-second timer, and the elapse of that
timer at `t0 + 10000`. -/
def c2AfterReconnect (U h1 h2 : Nat) (t0 : Int) : SocketSt :=
  elapse (connectSocket (disconnectSocket (connectSocket SocketSt.init U h1)
    U h1 t0) U h2) (t0 + 10000)

/-- The state after a second disconnect(U, h1) at `t2`, issued while h2 is
the current session. -/
def c2AfterStaleDisconnect (U h1 h2 : Nat) (t0 t2 : Int) : SocketSt :=
  disconnectSocket (c2AfterReconnect U h1 h2 t0) U h1 t2

/-- The state once the second disconnect's 10-second timer elapses. -/
def c2AfterStaleTimer (U h1 h2 : Nat) (t0 t2 : Int) : SocketSt :=
  elapse (c2AfterStaleDisconnect U h1 h2 t0 t2) (t2 + 10000)

/-- C2 (amended): in the reconnect scenario the first half of the claim
holds — after the 10 seconds elapse, U is still online and h2 is the
registered session — but the later disconnect(U, h1) is NOT a no-op: the
handler deletes U's registry entry without comparing handles, evicting
h2's session, and its fresh 10-second timer then marks U offline. -/
theorem disconnect_handler_ignores_handle (U h1 h2 : Nat) (t0 t2 : Int) :
    dbOnline (c2AfterReconnect U h1 h2 t0).online U = true
    ∧ mapGet (c2AfterReconnect U h1 h2 t0).connected U = some h2
    ∧ mapGet (c2AfterStaleDisconnect U h1 h2 t0 t2).connected U = none
    ∧ dbOnline (c2AfterStaleTimer U h1 h2 t0 t2).online U = false := by
  have hrc : c2AfterReconnect U h1 h2 t0
      = { connected := [(U, h2)], online := [(U, true)], timers := [] } := by
    simp [c2AfterReconnect, connectSocket, disconnectSocket, elapse,
      fireTimer, SocketSt.init, mapSet, mapDelete, mapHas, setOnline]
  have hsd : c2AfterStaleDisconnect U h1 h2 t0 t2
      = { connected := [], online := [(U, true)],
          timers := [(t2 + 10000, U)] } := by
    simp [c2AfterStaleDisconnect, hrc, disconnectSocket, mapDelete]
  have hst : c2AfterStaleTimer U h1 h2 t0 t2
      = { connected := [], online := [(U, false)], timers := [] } := by
    simp [c2AfterStaleTimer, hsd, elapse, fireTimer, mapHas, setOnline]
  refine ⟨?_, ?_, ?_, ?_⟩
  · rw [hrc]; simp [dbOnline]
  · rw [hrc]; simp [mapGet]
  · rw [hsd]; simp [mapGet]
  · rw [hst]; simp [dbOnline]

/-- C2 counterexample: with U = 1, h1 = 2, h2 = 3, the second
disconnect(1, 2) — issued while handle 3 is the current session — removes
the registry entry (evicting session 3) and, once its timer elapses, user
1 is marked offline; the claimed no-op behaviour does not hold. -/
theorem stale_disconnect_not_noop_cex :
    mapGet (c2AfterStaleDisconnect 1 2 3 0 20000).connected 1 = none
    ∧ dbOnline (c2AfterStaleTimer 1 2 3 0 20000).online 1 = false := by
  decide

/-- C10: when the request body carries longitude = 0 or latitude = 0, the
location middleware's falsy check treats the coordinate as absent: the
user store (location, lastActive, isOnline) is returned unchanged and no
error is signalled — the request proceeds. -/
theorem mwUpdateLocation_zero_is_skipped
    (users : List UserRec) (uid : Option Nat)
    (longitude latitude : Option ℚ) (now : Int)
    (h : longitude = some 0 ∨ latitude = some 0) :
    mwUpdateLocation users uid longitude latitude now = users := by
  rcases h with rfl | rfl
  · simp [mwUpdateLocation, jsFalsy]
  · have : jsFalsy (some 0) = true := rfl
    simp [mwUpdateLocation, this]

/-- C10 witness: a request with longitude 0 and latitude 50 leaves the
store unchanged. -/
theorem mwUpdateLocation_zero_is_skipped_witness :
    mwUpdateLocation [{ id := 1 }] (some 1) (some 0) (some 50) 5
      = [{ id := 1 }] :=
  mwUpdateLocation_zero_is_skipped [{ id := 1 }] (some 1) (some 0) (some 50) 5
    (Or.inl rfl)

end RadarBlip
